import Mathlib

/-!
Shallow embedding of scripts/state_parser.py.

The script maps remote object keys to per-resource-class working directories,
renders a backend file per directory, and drives an external CLI tool
("terraform init", "terraform state pull") as subprocesses over those
directories via multiprocessing.Pool.  Python strings are embedded as
List Char where general theorems are proved, with String wrappers where the
script passes strings around.  Exceptions are embedded as Except PyErr;
falling off the end of a Python function (returning None) is Except.ok ().
-/

/-- The Python exceptions the embedded code can raise.  indexError models the
IndexError from an out-of-range list subscript; nameError carries the unbound
identifier; valueError and exception carry the message text. -/
inductive PyErr where
  | indexError : PyErr
  | nameError (ident : String) : PyErr
  | valueError (msg : String) : PyErr
  | exception (msg : String) : PyErr
  deriving DecidableEq

/-- Split a character list at the first '-' character, returning the part
before it and the part after it; none when no '-' occurs.  This is the
one-separator step of Python's str.split with a '-' separator. -/
def splitFirstDash : List Char → Option (List Char × List Char)
  | [] => none
  | c :: rest =>
    if c = '-' then some ([], rest)
    else
      match splitFirstDash rest with
      | none => none
      | some (a, r) => some (c :: a, r)

/-- Python s.split('-', 2): split on '-' at most twice, so the result has at
most three parts and the third part keeps any further '-' characters. -/
def splitOnDashMax2 (s : List Char) : List (List Char) :=
  match splitFirstDash s with
  | none => [s]
  | some (a, rest) =>
    match splitFirstDash rest with
    | none => [a, rest]
    | some (b, rest2) => [a, b, rest2]

/-- The character list of the fixed suffix ".tfstate". -/
def tfstateSuffix : List Char := ".tfstate".data

/-- re.sub('\.tfstate$', '', s): remove one ".tfstate" occurrence anchored at
the end of the string.  Python's '$' with default flags also matches just
before a single trailing newline, so that case is reproduced as well; any
other string is returned unchanged. -/
def stripTfstate (s : List Char) : List Char :=
  if tfstateSuffix.isSuffixOf s then s.take (s.length - 8)
  else if (tfstateSuffix ++ ['\n']).isSuffixOf s then s.take (s.length - 9) ++ ['\n']
  else s

/-- The name computation in ResClassMetadata.__init__:
remove_suffix = re.sub('\.tfstate$', '', state_file_name) followed by
remove_suffix.split('-', 2)[2].  The subscript [2] raises IndexError when the
split yields fewer than three parts, embedded here as none. -/
def deriveNameL (s : List Char) : Option (List Char) :=
  (splitOnDashMax2 (stripTfstate s))[2]?

/-- String-level wrapper of deriveNameL, used where the script passes str. -/
def deriveName (s : String) : Option String :=
  (deriveNameL s.data).map (fun l => String.mk l)

/-- Number of '-' characters in a character list.  Used only to state the
hypothesis "the remainder does not split into at least three '-'-delimited
segments" (a full split has dashCount + 1 segments). -/
def dashCount : List Char → Nat
  | [] => 0
  | c :: rest => (if c = '-' then 1 else 0) + dashCount rest

/-- The ResClassMetadata object: state file name, derived resource-class name,
and working directory environment_path + name + "/". -/
structure ResClassMetadata where
  state_file_name : String
  name : String
  directory : String
  deriving DecidableEq

/-- ResClassMetadata.__init__(state_file_name, environment_path).  The name
derivation subscript can raise IndexError, which propagates to the caller. -/
def ResClassMetadata.make (state_file_name : String) (environment_path : String) :
    Except PyErr ResClassMetadata :=
  match deriveName state_file_name with
  | none => .error .indexError
  | some n => .ok ⟨state_file_name, n, environment_path ++ n ++ "/"⟩

/-- The test re.match(pattern, key) with pattern = r"^" + re.escape(search):
re.escape renders every character of the search string literal and re.match
anchors the attempt at position 0, so the test holds exactly when the search
string is a literal character-for-character start of the key.  No
pattern-matching semantics survive the escaping, whatever characters the
search string contains. -/
def regex_prefix_test (search_string key : List Char) : Bool :=
  search_string.isPrefixOf key

/-- parse_bucket_objects: iterate the bucket's objects in listing order and
keep every key matched by the escaped, anchored pattern.  The bucket listing
is an external collaborator, embedded as the ordered key list it returns. -/
def parse_bucket_objects (bucket_objects : List (List Char)) (search_string : List Char) :
    List (List Char) :=
  bucket_objects.filter (fun k => regex_prefix_test search_string k)

/-- The body of the for-loop in generate_backend_file, one key at a time.
For each state file name: construct ResClassMetadata (IndexError propagates);
compute output_uri; then evaluate `if not os.path.exists(output_dir)` — the
identifier output_dir is bound nowhere in the module, so this raises
NameError before os.makedirs, template.stream(...).dump(output_uri), the log
line and the append can run.  acc holds objects appended so far (reversed). -/
def generate_backend_loop (output_path : String) (acc : List ResClassMetadata) :
    List String → Except PyErr (List ResClassMetadata)
  | [] => .ok acc.reverse
  | key :: _rest =>
    match ResClassMetadata.make key output_path with
    | .error ex => .error ex
    | .ok md =>
      let _output_uri := md.directory ++ "backend.tf"
      .error (.nameError "output_dir")

/-- generate_backend_file(bucket_name, state_file_list, aws_region,
output_path).  Template loading (FileSystemLoader / get_template) is the
external template collaborator, assumed reachable; bucket and region are only
used inside the per-key template render, which is never reached. -/
def generate_backend_file (bucket_name : String) (state_file_list : List String)
    (aws_region : String) (output_path : String) : Except PyErr (List ResClassMetadata) :=
  let _bucket := bucket_name
  let _region := aws_region
  generate_backend_loop output_path [] state_file_list

/-- What the operating system reports for the one subprocess launched in a
given working directory: its exit code, the combined stdout+stderr chunks in
delivery order, and its wall-clock running time.  The script never reads a
clock and calls proc.wait() without a timeout, so duration is observable to
the model only, never to the embedded code. -/
structure ProcExec where
  exitCode : Int
  output : List String
  duration : Nat
  deriving DecidableEq

/-- The external CLI collaborator: per working directory, the behaviour of the
subprocess run there. -/
def World := String → ProcExec

/-- proc.returncode as read after proc.communicate(): communicate waits for
the process to terminate, so the code is always present by that point. -/
def returncode_after_communicate (e : ProcExec) : Option Int := some e.exitCode

/-- Where one iteration of the shared while-True block ends up. -/
inductive LoopStep where
  | brk (output : List String) : LoopStep
  | exnRaise (e : PyErr) : LoopStep
  | cont (output : List String) : LoopStep
  deriving DecidableEq

/-- One iteration of the while-True block shared by init_subprocess and
state_pull_subprocess:
  proc.poll(); stdout, stderr = proc.communicate(); append decoded chunks;
  if proc.returncode is not None: break;
  time.sleep(0.01); if proc.returncode != 0: raise Exception(...); log.
Since communicate waits for exit, the returncode read by the break test is
always set, so the iteration always breaks.  Were the None branch ever taken,
time.sleep would raise NameError because the module `time` is never imported;
the non-zero-exit raise and the log line sit after it, equally unreachable. -/
def poll_loop_body (e : ProcExec) (output : List String) (toRead : List String) : LoopStep :=
  let output := output ++ toRead
  match returncode_after_communicate e with
  | some _ => .brk output
  | none => .exnRaise (.nameError "time")

/-- The while-True loop, with fuel for the syntactically unbounded loop.
run_poll_loop_succ below shows any positive fuel yields the same result, so
the callers' choice of fuel is immaterial. -/
def run_poll_loop : Nat → ProcExec → List String → List String →
    Option (Except PyErr (List String))
  | 0, _, _, _ => none
  | fuel + 1, e, output, toRead =>
    match poll_loop_body e output toRead with
    | .brk out => some (.ok out)
    | .exnRaise ex => some (.error ex)
    | .cont out => run_poll_loop fuel e out []

/-- init_subprocess(value): Popen(['/usr/local/bin/terraform', 'init'],
stdout=PIPE, stderr=STDOUT, cwd=value); output = []; proc.wait(); then the
shared loop.  With stdout=PIPE the first communicate() returns the combined
output, which is appended and then dropped; the function body ends after the
break, so Python returns None for every exit code. -/
def init_subprocess (w : World) (dir : String) : Except PyErr Unit :=
  let e := w dir
  match run_poll_loop 1 e [] e.output with
  | some (.ok _output) => .ok ()
  | some (.error ex) => .error ex
  | none => .error (.exception "loop ran out of fuel")

/-- state_pull_subprocess(value): the state.json file in the working directory
is opened and passed as stdout (stderr=STDOUT goes to the same file), the
with-block closes the parent's handle right after Popen, then the identical
wait-and-loop code runs.  stdout is not a pipe, so communicate() returns
(None, None) and nothing is appended; again Python returns None for every
exit code. -/
def state_pull_subprocess (w : World) (dir : String) : Except PyErr Unit :=
  let e := w dir
  match run_poll_loop 1 e [] [] with
  | some (.ok _output) => .ok ()
  | some (.error ex) => .error ex
  | none => .error (.exception "loop ran out of fuel")

/-- pool.map(f, xs): every element is handed to a worker and evaluated; the
results come back in input order; if any task raised, pool.map re-raises in
the parent instead of returning the list. -/
def poolMap {α β : Type} (f : α → Except PyErr β) (xs : List α) : Except PyErr (List β) :=
  match xs with
  | [] => .ok []
  | x :: rest =>
    match f x, poolMap f rest with
    | .error ex, _ => .error ex
    | .ok _, .error ex => .error ex
    | .ok y, .ok ys => .ok (y :: ys)

/-- multiprocessing_processes = len(res_class_dirs): the pool size both batch
functions pass to Pool.  There is no separate concurrency-limit input. -/
def multiprocessing_processes (res_class_dirs : List String) : Nat :=
  res_class_dirs.length

/-- pull_state_file(res_class_dirs): Pool(multiprocessing_processes) — which
raises ValueError when the directory list is empty, because Pool requires at
least one process — then processed = pool.map(state_pull_subprocess, dirs).
The name processed is never read again and the function body ends, so Python
returns None: no per-directory result reaches the caller. -/
def pull_state_file (w : World) (res_class_dirs : List String) : Except PyErr Unit :=
  if multiprocessing_processes res_class_dirs = 0 then
    .error (.valueError "Number of processes must be at least 1")
  else
    match poolMap (state_pull_subprocess w) res_class_dirs with
    | .error ex => .error ex
    | .ok _processed => .ok ()

/-- A sub-forest of the directory tree on disk: a list of sibling directories,
each carrying its name and its own sub-forest of children.  Plain files are
irrelevant to the embedded code, which only ever reads the dirs component of
each os.walk triple. -/
inductive FsForest where
  | nil : FsForest
  | cons (name : String) (children : FsForest) (rest : FsForest) : FsForest

/-- os.path.join(root, name) for a relative name: insert the separator unless
the root is empty or already ends with one. -/
def osJoin (root name : String) : String :=
  if root = "" then name
  else if root.endsWith "/" then root ++ name
  else root ++ "/" ++ name

/-- The entries one os.walk triple contributes to the collecting loop: for the
directory at `path` whose children are the top level of `f`, the inner
for-loop appends os.path.join(path, name) for every child name in order. -/
def walkChildPaths (path : String) : FsForest → List String
  | .nil => []
  | .cons n _ rest => osJoin path n :: walkChildPaths path rest

/-- Concatenated collector output for the bottom-up walks of every directory
in forest f, where f holds the children of the directory at `path`.  With
topdown=False, os.walk emits a directory's triple after all triples of its
subtree, siblings in listing order. -/
def walkSubdirPaths (path : String) : FsForest → List String
  | .nil => []
  | .cons n ch rest =>
    (walkSubdirPaths (osJoin path n) ch ++ walkChildPaths (osJoin path n) ch)
      ++ walkSubdirPaths path rest

/-- res_class_dirs exactly as init_res_classes builds it: iterate
os.walk(output_path, topdown=False) and append os.path.join(root, name) for
every name in each triple's dirs list.  The walk reads only the filesystem
under output_path; no registry of resource classes is consulted. -/
def collect_res_class_dirs (output_path : String) (f : FsForest) : List String :=
  walkSubdirPaths output_path f ++ walkChildPaths output_path f

/-- Stated from the claim's words, for comparison with the walk above: every
subdirectory at every depth under the output path, each parent listed before
its own children, siblings in listing order. -/
def specSubdirPaths (path : String) : FsForest → List String
  | .nil => []
  | .cons n ch rest =>
    osJoin path n :: (specSubdirPaths (osJoin path n) ch ++ specSubdirPaths path rest)

/-- init_res_classes(output_path): build res_class_dirs from the walk, create
Pool(len(res_class_dirs)) — ValueError when that is zero — run the init batch
over the directories, discard the mapped results, then call pull_state_file
on the same directory list.  f is the forest of directories found on disk
under output_path. -/
def init_res_classes (w : World) (f : FsForest) (output_path : String) : Except PyErr Unit :=
  let res_class_dirs := collect_res_class_dirs output_path f
  if multiprocessing_processes res_class_dirs = 0 then
    .error (.valueError "Number of processes must be at least 1")
  else
    match poolMap (init_subprocess w) res_class_dirs with
    | .error ex => .error ex
    | .ok _processed => pull_state_file w res_class_dirs

/-- One dispatched job's subprocess lifetime: the process is alive at the
instants start, start+1, ..., start+len-1. -/
structure ProcInterval where
  start : Nat
  len : Nat
  deriving DecidableEq

/-- How many of the given subprocess lifetimes cover instant t. -/
def aliveAt (ivs : List ProcInterval) (t : Nat) : Nat :=
  (ivs.filter (fun iv => decide (iv.start ≤ t) && decide (t < iv.start + iv.len))).length

/-- The schedules a Pool of n worker processes can realise: each worker
executes one mapped call at a time, and each call of init_subprocess or
state_pull_subprocess holds exactly one live CLI subprocess between its Popen
and the process exit, so at most n subprocesses are alive at any instant.
The pool imposes no other constraint on how lifetimes overlap. -/
def poolAdmits (n : Nat) (ivs : List ProcInterval) : Prop :=
  ∀ t : Nat, aliveAt ivs t ≤ n

/-- Five working directories, as in the spec's concurrency example. -/
def dirs5 : List String := ["d1", "d2", "d3", "d4", "d5"]

/-- A schedule in which all five subprocesses are alive at instants 0, 1, 2. -/
def ivs5 : List ProcInterval := [⟨0, 3⟩, ⟨0, 3⟩, ⟨0, 3⟩, ⟨0, 3⟩, ⟨0, 3⟩]

/-- A world where the job in directory "a" exits 1 and every other job
exits 0. -/
def wMixed : World := fun d =>
  if d = "a" then ⟨1, ["terraform failed"], 2⟩ else ⟨0, ["terraform ok"], 2⟩

/-- A world where every job exits 0 quickly. -/
def wOk : World := fun _ => ⟨0, ["terraform ok"], 1⟩

/-- A world where every job exits 0 after 3600 time units. -/
def wSlow : World := fun _ => ⟨0, [], 3600⟩

/-- A world where every job exits 0 instantly. -/
def wFast : World := fun _ => ⟨0, [], 0⟩

/-- Five state file keys of which exactly the first fails name derivation:
"badkey" has no '-'-delimited third segment. -/
def keys5 : List String :=
  ["badkey.tfstate", "proj-env-app.tfstate", "proj-env-db.tfstate",
   "proj-env-cache.tfstate", "proj-env-queue.tfstate"]

/-- Any positive fuel makes the shared loop break at its first iteration with
the output read so far: the returncode observed after communicate() is never
None, so the break always fires before the unreachable sleep and raise. -/
theorem run_poll_loop_succ (fuel : Nat) (e : ProcExec) (output toRead : List String) :
    run_poll_loop (fuel + 1) e output toRead = some (.ok (output ++ toRead)) := rfl

/-- init_subprocess returns None (ok ()) for every world and directory: the
non-zero-exit raise sits after the loop's break and is dead code. -/
theorem init_subprocess_ok (w : World) (dir : String) :
    init_subprocess w dir = .ok () := rfl

/-- state_pull_subprocess returns None (ok ()) for every world and directory,
for the same reason as init_subprocess. -/
theorem state_pull_subprocess_ok (w : World) (dir : String) :
    state_pull_subprocess w dir = .ok () := rfl

/-- pool.map over a task function that never raises and always returns None
yields one None per input element, in input order. -/
theorem poolMap_const_ok {α : Type} (f : α → Except PyErr Unit)
    (h : ∀ x, f x = .ok ()) (xs : List α) :
    poolMap f xs = .ok (List.replicate xs.length ()) := by
  induction xs with
  | nil => rfl
  | cons x rest ih => simp [poolMap, h x, ih, List.replicate]

/-- At any instant, no more subprocesses are alive than there are jobs. -/
theorem aliveAt_le_length (ivs : List ProcInterval) (t : Nat) :
    aliveAt ivs t ≤ ivs.length :=
  (List.filter_sublist ivs).length_le

/-- Splitting a list that starts with a dash-free block followed by '-' cuts
exactly at that first dash. -/
theorem splitFirstDash_append_nodash (a r : List Char) (ha : '-' ∉ a) :
    splitFirstDash (a ++ '-' :: r) = some (a, r) := by
  induction a with
  | nil => simp [splitFirstDash]
  | cons x a ih =>
    have hx : ¬ x = '-' := fun h => ha (by simp [h])
    have ha' : '-' ∉ a := fun h => ha (List.mem_cons_of_mem _ h)
    simp [splitFirstDash, hx, ih ha']

/-- A list without any dash does not split. -/
theorem splitFirstDash_eq_none_of_dashCount (s : List Char) (h : dashCount s = 0) :
    splitFirstDash s = none := by
  induction s with
  | nil => rfl
  | cons c rest ih =>
    by_cases hc : c = '-'
    · simp only [dashCount, if_pos hc] at h
      omega
    · simp only [dashCount, if_neg hc] at h
      simp [splitFirstDash, hc, ih (by omega)]

/-- Splitting at the first dash consumes exactly one dash. -/
theorem splitFirstDash_dashCount (s a r : List Char) (h : splitFirstDash s = some (a, r)) :
    dashCount s = dashCount r + 1 := by
  induction s generalizing a r with
  | nil => simp [splitFirstDash] at h
  | cons c rest ih =>
    by_cases hc : c = '-'
    · simp only [splitFirstDash, if_pos hc, Option.some.injEq, Prod.mk.injEq] at h
      obtain ⟨_, hr⟩ := h
      simp [dashCount, hc, hr]
      omega
    · simp only [splitFirstDash, if_neg hc] at h
      cases hs : splitFirstDash rest with
      | none => rw [hs] at h; simp at h
      | some p =>
        obtain ⟨a', r'⟩ := p
        rw [hs] at h
        simp only [Option.some.injEq, Prod.mk.injEq] at h
        obtain ⟨_, hr⟩ := h
        have := ih a' r' hs
        simp [dashCount, hc, ← hr, this]

/-- The escaped anchored regex test of parse_bucket_objects holds exactly when
the first length-of-search characters of the key equal the search string. -/
theorem isPrefixOf_eq_take (p k : List Char) :
    p.isPrefixOf k = decide (k.take p.length = p) := by
  induction p generalizing k with
  | nil => simp [List.isPrefixOf]
  | cons x p ih =>
    cases k with
    | nil => simp [List.isPrefixOf]
    | cons y k =>
      simp only [List.isPrefixOf, List.length_cons, List.take_succ_cons]
      by_cases hxy : x = y
      · subst hxy
        simp [ih]
      · simp [hxy, Ne.symm hxy]

/-- C1 counterexample: the claim says that with concurrency_limit = 2 over 5
jobs at most 2 subprocesses are ever alive at once.  The code has no
concurrency-limit input at all: the pool size is len(res_class_dirs), so for
the five directories of dirs5 the pool admits the schedule ivs5 in which all
five subprocesses are alive at instant 0 — 5 is not at most 2. -/
theorem c1_counterexample :
    poolAdmits (multiprocessing_processes dirs5) ivs5
      ∧ aliveAt ivs5 0 = 5 ∧ ¬ aliveAt ivs5 0 ≤ 2 :=
  ⟨fun t => le_trans (aliveAt_le_length ivs5 t) (by decide), by decide, by decide⟩

/-- C1 amended: the only bound the batch functions place on concurrently live
subprocesses is the pool size, which the code sets to the number of jobs
itself — every schedule with one subprocess lifetime per directory is
admitted, so with 5 jobs up to 5 processes may run at the same instant. -/
theorem c1_amended_pool_bound (res_class_dirs : List String) (ivs : List ProcInterval)
    (h : ivs.length = res_class_dirs.length) :
    poolAdmits (multiprocessing_processes res_class_dirs) ivs :=
  fun t => le_of_le_of_eq (aliveAt_le_length ivs t) h

/-- C1 witness: the amended bound instantiated at the five directories and the
all-overlapping five-interval schedule. -/
theorem c1_amended_pool_bound_witness :
    ivs5.length = dirs5.length ∧ poolAdmits (multiprocessing_processes dirs5) ivs5 :=
  ⟨by decide, c1_amended_pool_bound dirs5 ivs5 (by decide)⟩

/-- C2 counterexample: in wMixed the job in "a" exits 1 and the job in "b"
exits 0, yet both calls return the same bare None and the batch value is two
indistinguishable entries — the exit-1 job is not recorded as failed in any
BatchResult entry, because no status is recorded at all. -/
theorem c2_counterexample :
    (wMixed "a").exitCode = 1 ∧ (wMixed "b").exitCode = 0
      ∧ init_subprocess wMixed "a" = init_subprocess wMixed "b"
      ∧ poolMap (init_subprocess wMixed) ["a", "b"] = .ok [(), ()] :=
  ⟨rfl, rfl, rfl, rfl⟩

/-- C2 amended: a non-zero exit does not abort sibling jobs — the raise after
the loop's break is unreachable — but neither is it recorded: both subprocess
helpers return None for every exit code, so the pooled batch always completes
with one unit result per directory and nothing distinguishes failed from
succeeded jobs; the mapped results are then discarded by the callers. -/
theorem c2_amended_no_record_no_abort (w : World) (dirs : List String) :
    poolMap (init_subprocess w) dirs = .ok (List.replicate dirs.length ())
      ∧ poolMap (state_pull_subprocess w) dirs = .ok (List.replicate dirs.length ()) :=
  ⟨poolMap_const_ok _ (fun d => init_subprocess_ok w d) dirs,
   poolMap_const_ok _ (fun d => state_pull_subprocess_ok w d) dirs⟩

/-- C3 counterexample: the value pull_state_file returns is the same for a
one-directory batch and a two-directory batch (Python returns None), so the
returned value cannot contain one entry per input directory keyed by
directory; moreover the empty directory sequence does not yield an empty
result but raises ValueError from Pool(0). -/
theorem c3_counterexample :
    pull_state_file wOk ["a"] = .ok ()
      ∧ pull_state_file wOk ["a", "b"] = pull_state_file wOk ["a"]
      ∧ pull_state_file wOk [] = .error (.valueError "Number of processes must be at least 1") :=
  ⟨rfl, rfl, rfl⟩

/-- C3 amended: internally pool.map does produce exactly one result per input
directory, in input order, with no directory dropped and none retried; but
the batch function returns None, discarding that list, and an empty input
raises ValueError because Pool requires at least one process. -/
theorem c3_amended_one_result_per_dir (w : World) (dirs : List String) :
    poolMap (state_pull_subprocess w) dirs = .ok (List.replicate dirs.length ())
      ∧ pull_state_file w dirs
        = (if dirs.length = 0 then
            .error (.valueError "Number of processes must be at least 1") else .ok ()) := by
  have hp := poolMap_const_ok _ (fun d => state_pull_subprocess_ok w d) dirs
  refine ⟨hp, ?_⟩
  unfold pull_state_file multiprocessing_processes
  cases dirs with
  | nil => simp
  | cons d rest => simp [hp]

/-- C4 counterexample: registering the five keys of keys5, of which exactly
one is malformed, does not yield four ResourceClass entries plus one reported
skip — the IndexError from the malformed key propagates out of
generate_backend_file and the whole batch raises. -/
theorem c4_counterexample :
    generate_backend_file "bucket" keys5 "us-east-1" "./generated/stage/"
      = .error .indexError := rfl

/-- C4 amended: generate_backend_file aborts on its first key instead of
skipping: a malformed first key raises IndexError out of the whole batch, and
a well-formed first key raises NameError on the unbound identifier
output_dir; either way no skipped-key record exists and no later key is
processed. -/
theorem c4_amended_abort_on_first_key (bucket region path key : String) (rest : List String) :
    generate_backend_file bucket (key :: rest) region path
      = .error (if (deriveName key).isSome then .nameError "output_dir" else .indexError) := by
  unfold generate_backend_file generate_backend_loop ResClassMetadata.make
  cases h : deriveName key <;> simp [h]

/-- C5 counterexample: a job whose process runs 3600 time units is treated
exactly like one that finishes instantly — plain success, no forcible
termination, no Timeout report — because proc.wait() has no timeout and no
job carries a timeout at all. -/
theorem c5_counterexample :
    (wSlow "d").duration = 3600 ∧ (wFast "d").duration = 0
      ∧ init_subprocess wSlow "d" = init_subprocess wFast "d"
      ∧ init_subprocess wSlow "d" = .ok () :=
  ⟨rfl, rfl, rfl, rfl⟩

/-- C5 amended: no wall-clock timeout is supported: the outcome of a
dispatched job is the same constant bare-success None in every world and
directory, so it depends neither on the process's duration nor on anything
else, no process is ever forcibly terminated, and no job is ever reported as
a Timeout failure; a job is also never left pending or omitted, since the
dispatch function returns for every input. -/
theorem c5_amended_no_timeout (w w' : World) (dir dir' : String) :
    init_subprocess w dir = init_subprocess w' dir'
      ∧ state_pull_subprocess w dir = state_pull_subprocess w' dir'
      ∧ init_subprocess w dir = .ok () :=
  ⟨(init_subprocess_ok w dir).trans (init_subprocess_ok w' dir').symm,
   (state_pull_subprocess_ok w dir).trans (state_pull_subprocess_ok w' dir').symm,
   init_subprocess_ok w dir⟩

/-- C6: for every key whose remainder after stripping ".tfstate" is a
dash-free first segment, a dash, a dash-free second segment, a dash, and an
arbitrary tail, derivation returns exactly that tail — the third part of the
maxsplit-2 split — so every '-' beyond the second stays embedded in the
returned resource-class name. -/
theorem c6_derive_third_segment (key a b c : List Char)
    (ha : '-' ∉ a) (hb : '-' ∉ b)
    (hkey : stripTfstate key = a ++ '-' :: (b ++ '-' :: c)) :
    deriveNameL key = some c := by
  simp [deriveNameL, splitOnDashMax2, hkey,
        splitFirstDash_append_nodash a _ ha, splitFirstDash_append_nodash b c hb]

/-- C6 witness: derive("proj-env-res-class.tfstate") = "res-class" — the
suffix is stripped and the third segment keeps its embedded dash. -/
theorem c6_derive_third_segment_witness :
    ('-' ∉ ("proj".data)) ∧ ('-' ∉ ("env".data))
      ∧ stripTfstate ("proj-env-res-class.tfstate".data)
          = ("proj".data) ++ '-' :: (("env".data) ++ '-' :: ("res-class".data))
      ∧ deriveNameL ("proj-env-res-class.tfstate".data) = some ("res-class".data) :=
  ⟨by decide, by decide, by decide,
   c6_derive_third_segment ("proj-env-res-class.tfstate".data) ("proj".data) ("env".data)
     ("res-class".data) (by decide) (by decide) (by decide)⟩

/-- C7: for every key whose remainder after stripping the suffix has at most
one '-' — that is, it does not split into at least three '-'-delimited
segments — derivation fails (the IndexError of the [2] subscript, the code's
realisation of the MalformedKey failure) and never returns a name. -/
theorem c7_derive_malformed_none (key : List Char)
    (h : dashCount (stripTfstate key) ≤ 1) :
    deriveNameL key = none := by
  unfold deriveNameL splitOnDashMax2
  cases hs : splitFirstDash (stripTfstate key) with
  | none => simp
  | some p =>
    obtain ⟨a, rest⟩ := p
    have hc := splitFirstDash_dashCount _ _ _ hs
    have hrest : splitFirstDash rest = none :=
      splitFirstDash_eq_none_of_dashCount rest (by omega)
    simp [hrest]

/-- C7 witness: derive("onlytwo-segments.tfstate") fails — the remainder has
only two segments. -/
theorem c7_derive_malformed_none_witness :
    dashCount (stripTfstate ("onlytwo-segments.tfstate".data)) ≤ 1
      ∧ deriveNameL ("onlytwo-segments.tfstate".data) = none :=
  ⟨by decide, c7_derive_malformed_none ("onlytwo-segments.tfstate".data) (by decide)⟩

/-- C8: parse_bucket_objects returns exactly the keys whose first
len(search_string) characters equal the search string character for
character — the escaped anchored regex is a literal test — and the result is
a sublist of the input, so input order is preserved and an empty result is
simply the filter of a batch with no matching key. -/
theorem c8_literal_prefix_filter (bucket_objects : List (List Char)) (search_string : List Char) :
    parse_bucket_objects bucket_objects search_string
      = bucket_objects.filter (fun k => decide (k.take search_string.length = search_string))
    ∧ List.Sublist (parse_bucket_objects bucket_objects search_string) bucket_objects := by
  constructor
  · have hfun : (fun k => regex_prefix_test search_string k)
        = fun k => decide (k.take search_string.length = search_string) :=
      funext (fun k => isPrefixOf_eq_take search_string k)
    unfold parse_bucket_objects
    rw [hfun]
  · exact List.filter_sublist bucket_objects

/-- C9: generating backend files for a single well-formed key raises
NameError on the unbound identifier output_dir before any directory is
ensured or any file rendered, so even a first invocation fails — the claimed
idempotent second invocation with byte-identical output never happens. -/
theorem c9_generate_backend_file_name_error :
    generate_backend_file "state-bucket" ["proj-env-app.tfstate"] "eu-west-1"
        "./generated/staging/"
      = .error (.nameError "output_dir") := rfl

/-- C10: the directory list init_res_classes builds by iterating os.walk and
collecting os.path.join(root, name) for every dirs entry is, up to order,
exactly every subdirectory at every depth under the output path — for every
forest on disk, independent of any registered resource classes (the walk
takes no registry input, and the same list is then handed to the init batch
and to pull_state_file). -/
theorem c10_walk_collects_all_subdirs (output_path : String) (f : FsForest) :
    (collect_res_class_dirs output_path f).Perm (specSubdirPaths output_path f) := by
  induction f generalizing output_path with
  | nil => simp [collect_res_class_dirs, walkSubdirPaths, walkChildPaths, specSubdirPaths]
  | cons n ch rest ih_ch ih_rest =>
    have h1 : collect_res_class_dirs output_path (.cons n ch rest)
        = (collect_res_class_dirs (osJoin output_path n) ch
            ++ walkSubdirPaths output_path rest)
          ++ osJoin output_path n :: walkChildPaths output_path rest := by
      simp [collect_res_class_dirs, walkSubdirPaths, walkChildPaths, List.append_assoc]
    rw [h1]
    simp only [specSubdirPaths]
    refine List.perm_middle.trans ?_
    refine List.Perm.cons _ ?_
    rw [List.append_assoc]
    exact (ih_ch _).append (ih_rest _)
